import Mathlib

/-!
Verification development for the Capital_bot (GoldBot) trading engine.

The repository ships several generations of each module side by side:
the `src/node/src` tree holds `strategy.js`, `indicators.js`,
`candleStore.js`, `config.js`, `api.js`, and the unnamed parts hold
`state.js` (part_003), a newer `candleStore.js` + `indicators.js`
(part_002), a matching `config.js` (part_001), and auxiliary modules.

This file shallowly embeds the data model and the operations the
claims are about.  Prices are exact rationals (the JS source uses
doubles); times are integers in epoch milliseconds; fallible remote
calls are passed in as `Option` results (`none` = the call threw),
so that JS control flow — statements after a throwing `await` do not
run — is modelled by explicit branching.
-/

namespace CapitalBot

/-- Trade direction, `'BUY' | 'SELL'` in the source. -/
inductive Dir
  | BUY
  | SELL
deriving DecidableEq, Repr

/-- Position mode, `'SCALP' | 'SWING' | 'UNKNOWN'` in the source. -/
inductive Mode
  | SCALP
  | SWING
  | UNKNOWN
deriving DecidableEq, Repr

/-- Timeframes handled by candleStore.js. -/
inductive TF
  | M1
  | M5
  | M15
  | H1
  | H4
deriving DecidableEq, Repr

/-- An OHLC bar: `{ time, open, high, low, close }` (volume is never read
by the embedded code paths).  `t` is the bar open time in epoch ms. -/
structure Bar where
  t : Int
  o : ℚ
  h : ℚ
  l : ℚ
  c : ℚ
deriving DecidableEq, Repr

/-- Array extractor `closes` from strategy.js. -/
def closes (cs : List Bar) : List ℚ := cs.map (fun b => b.c)

/-- Array extractor `highs` from strategy.js. -/
def highs (cs : List Bar) : List ℚ := cs.map (fun b => b.h)

/-- Array extractor `lows` from strategy.js. -/
def lows (cs : List Bar) : List ℚ := cs.map (fun b => b.l)

/-! ### Configuration constants

From `src/unnamed/part_001` (the config.js generation matching
`src/node/src/strategy.js`): the SL/TP block, BOS block and partial
close block. -/

def ATR_PERIOD : ℕ := 14

def BOS_LOOKBACK_SCALP : ℕ := 8

def BOS_LOOKBACK_SWING : ℕ := 10

def BIG_CANDLE_ATR_MAX : ℚ := 3 / 2

def SL_BUFFER_ATR : ℚ := 3 / 20

def TP1_R : ℚ := 1

def TP2_R_SCALP : ℚ := 2

def TP2_R_SWING : ℚ := 3

def PARTIAL_CLOSE_TP1 : ℚ := 1 / 2

def TP1_MIN_DISTANCE_SPREAD_MULT : ℚ := 2

def SCALP_SIZE_UNITS : ℕ := 1

def SWING_SIZE_UNITS : ℕ := 1

/-! ### Indicators

`trueRanges` is identical in both indicator generations
(src/node/src/indicators.js lines 51-57 and src/unnamed/part_002
lines 198-204): TR of bar 0 is `h - l`, TR of bar `i > 0` is
`max(h-l, |h - closes[i-1]|, |l - closes[i-1]|)`. -/

def trAux : ℚ → List ℚ → List ℚ → List ℚ → List ℚ
  | _, [], _, _ => []
  | _, _ :: _, [], _ => []
  | _, _ :: _, _ :: _, [] => []
  | prevClose, hh :: hs, ll :: ls, cc :: cs =>
      max (hh - ll) (max |hh - prevClose| |ll - prevClose|) :: trAux cc hs ls cs

def trueRanges : List ℚ → List ℚ → List ℚ → List ℚ
  | [], _, _ => []
  | _ :: _, [], _ => []
  | _ :: _, _ :: _, [] => []
  | hh :: hs, ll :: ls, cc :: cs => (hh - ll) :: trAux cc hs ls cs

/- Indicator generation of `src/node/src/indicators.js` (EMA smoothing). -/
namespace IndEma

/-- The last value of the EMA series (`computeEMA` + `ema` in
src/node/src/indicators.js): seed with the SMA of the first `period`
values, then smooth with `k = 2/(period+1)`.  `none` when there are
fewer than `period` values (the JS code returns null); a zero period
degenerates to NaN in JS and is modelled as missing. -/
def ema (values : List ℚ) (period : ℕ) : Option ℚ :=
  if period = 0 ∨ values.length < period then none
  else
    some ((values.drop period).foldl
      (fun acc v => v * (2 / ((period : ℚ) + 1)) + acc * (1 - 2 / ((period : ℚ) + 1)))
      ((values.take period).sum / (period : ℚ)))

/-- `atr` of src/node/src/indicators.js lines 67-69:
EMA over the true ranges. -/
def atr (hs ls cs : List ℚ) (period : ℕ) : Option ℚ :=
  ema (trueRanges hs ls cs) period

end IndEma

/- Indicator generation of `src/unnamed/part_002` (Wilder smoothing). -/
namespace IndWilder

/-- `wilderRMA` of src/unnamed/part_002 lines 215-226: seed with the SMA
of the first `period` values, then `rma = (rma*(period-1) + v)/period`. -/
def wilderRMA (values : List ℚ) (period : ℕ) : Option ℚ :=
  if period = 0 ∨ values.length < period then none
  else
    some ((values.drop period).foldl
      (fun rma v => (rma * ((period : ℚ) - 1) + v) / (period : ℚ))
      ((values.take period).sum / (period : ℚ)))

/-- `atr` of src/unnamed/part_002 lines 238-240: Wilder RMA over the
true ranges. -/
def atr (hs ls cs : List ℚ) (period : ℕ) : Option ℚ :=
  wilderRMA (trueRanges hs ls cs) period

end IndWilder

/-- Modelled from the spec: a Wilder-smoothed RMA written exactly as the
spec words it — smoothing constant `α = 1/n` (`new = (1-α)·old + α·v`),
seeded by the SMA of the first `n` values. -/
def rmaSpec (values : List ℚ) (n : ℕ) : Option ℚ :=
  if n = 0 ∨ values.length < n then none
  else
    some ((values.drop n).foldl
      (fun acc v => (1 - 1 / (n : ℚ)) * acc + (1 / (n : ℚ)) * v)
      ((values.take n).sum / (n : ℚ)))

/-- Modelled from the spec: ATR as the Wilder RMA (`α = 1/n`) of the
true-range sequence. -/
def atrSpec (hs ls cs : List ℚ) (n : ℕ) : Option ℚ :=
  rmaSpec (trueRanges hs ls cs) n

/-- `highestHigh` of indicators.js: max over the last `n` elements
(`Math.max(...highs.slice(-n))`; the empty case is unreachable at the
call sites, which guarantee at least `n ≥ 1` elements). -/
def highestHigh (hs : List ℚ) (n : ℕ) : ℚ :=
  match hs.drop (hs.length - n) with
  | [] => 0
  | x :: xs => xs.foldl max x

/-- `lowestLow` of indicators.js: min over the last `n` elements. -/
def lowestLow (ls : List ℚ) (n : ℕ) : ℚ :=
  match ls.drop (ls.length - n) with
  | [] => 0
  | x :: xs => xs.foldl min x

/-! ### Runtime state (`src/unnamed/part_003`, state.js) -/

/-- A tracked setup (the `active: true` payload of the setup objects in
state.js / strategy.js). -/
structure Setup where
  direction : Dir
  createdTime : Int
  pullbackExtreme : ℚ
deriving DecidableEq, Repr

/-- A bot-tracked position, after the typedef in state.js. -/
structure Position where
  mode : Mode
  direction : Dir
  size : ℕ
  entry : ℚ
  sl : ℚ
  tp1 : ℚ
  tp2 : ℚ
  tp1Done : Bool
  dealId : String
  dealReference : String
  openedTime : Int
deriving DecidableEq, Repr

/-- The module-level mutable state of state.js: daily counters, the two
setups (`none` embeds `{ active: false }`) and the open-position list. -/
structure BotState where
  openPositions : List Position
  dayRealizedPnlUsd : ℚ
  tradesToday : ℕ
  consecutiveLosses : ℕ
  setupScalp : Option Setup
  setupSwing : Option Setup
deriving DecidableEq, Repr

/-- `addPosition` (state.js lines 60-64): push the position and
increment `tradesToday`. -/
def addPosition (st : BotState) (p : Position) : BotState :=
  { st with openPositions := st.openPositions ++ [p],
            tradesToday := st.tradesToday + 1 }

/-- `adoptPosition` (state.js lines 71-74): push the position without
touching `tradesToday`. -/
def adoptPosition (st : BotState) (p : Position) : BotState :=
  { st with openPositions := st.openPositions ++ [p] }

/-- `replacePosition` (state.js lines 80-84): drop the old dealId, push
the replacement, `tradesToday` untouched. -/
def replacePosition (st : BotState) (oldDealId : String) (newPos : Position) : BotState :=
  { st with openPositions :=
      (st.openPositions.filter (fun p => p.dealId ≠ oldDealId)) ++ [newPos] }

/-- `removePosition` (state.js lines 86-88). -/
def removePosition (st : BotState) (dealId : String) : BotState :=
  { st with openPositions := st.openPositions.filter (fun p => p.dealId ≠ dealId) }

/-- `updatePnL` (state.js lines 103-114): add the realised pnl to the
day total; on a loss increment `consecutiveLosses`, otherwise reset it. -/
def updatePnL (st : BotState) (pnlUsd : ℚ) (isLoss : Bool) : BotState :=
  { st with dayRealizedPnlUsd := st.dayRealizedPnlUsd + pnlUsd,
            consecutiveLosses := if isLoss then st.consecutiveLosses + 1 else 0 }

/-! ### Candle store: in-progress bar detection

Two generations of `dropInProgress` exist in the sources. -/

/-- Timeframe duration in milliseconds (`TF_MS`). -/
def TF_MS : TF → Int
  | .M1 => 60000
  | .M5 => 300000
  | .M15 => 900000
  | .H1 => 3600000
  | .H4 => 14400000

/-- `dropInProgress` of src/unnamed/part_002 lines 42-48: the last bar is
in progress when `Date.now() < barEndMs - 1_000` (1 s cushion), with
`barEndMs = last.time + TF_MS[tf]`. -/
def dropInProgressCushion (tf : TF) (bars : List Bar) (now : Int) : List Bar :=
  match bars.getLast? with
  | none => bars
  | some lastBar =>
      if now < lastBar.t + TF_MS tf - 1000 then bars.dropLast else bars

/-- `dropInProgress` of src/node/src/candleStore.js lines 167-173: the
last bar is in progress when `elapsed < TF_MS[tf]` with
`elapsed = Date.now() - last.time` — no cushion. -/
def dropInProgressNoCushion (tf : TF) (bars : List Bar) (now : Int) : List Bar :=
  match bars.getLast? with
  | none => bars
  | some lastBar =>
      if now - lastBar.t < TF_MS tf then bars.dropLast else bars

/-! ### Strategy engine (`src/node/src/strategy.js`) -/

/-- `resolvePnl` (strategy.js lines 36-43): prefer the broker-reported
profit (`confirmed.profit` when it is a number, embedded as
`some profit`), fall back to directional arithmetic. -/
def resolvePnl (confirmedProfit : Option ℚ) (direction : Dir)
    (entry exitPrice size : ℚ) : ℚ :=
  match confirmedProfit with
  | some p => p
  | none =>
      match direction with
      | .BUY => (exitPrice - entry) * size
      | .SELL => (entry - exitPrice) * size

/-- `triggerBOS` (strategy.js lines 256-295): skip when not enough bars
or no ATR; skip big candles (`range > BIG_CANDLE_ATR_MAX·ATR`, strict);
margin `max(spread, 0.05·ATR)`; BUY fires iff
`close > highestHigh(prev, n) + margin` (strict), SELL mirrored. -/
def triggerBOS (candles : List Bar) (setupDirection : Dir)
    (bosLookback : ℕ) (spread : ℚ) : Bool :=
  if candles.length < bosLookback + 1 then false
  else
    match IndEma.atr (highs candles) (lows candles) (closes candles) ATR_PERIOD with
    | none => false
    | some atrVal =>
        match candles.getLast? with
        | none => false
        | some bar =>
            if BIG_CANDLE_ATR_MAX * atrVal < bar.h - bar.l then false
            else
              if (candles.dropLast).length < bosLookback then false
              else
                match setupDirection with
                | .BUY =>
                    decide (highestHigh (highs candles.dropLast) bosLookback
                      + max spread ((1 / 20) * atrVal) < bar.c)
                | .SELL =>
                    decide (bar.c < lowestLow (lows candles.dropLast) bosLookback
                      - max spread ((1 / 20) * atrVal))

/-- `computeSLTP` (strategy.js lines 301-327): `buffer = 0.15·ATR`;
BUY: `sl = pullbackExtreme − buffer`, `R = entry − sl`,
`tp1 = entry + TP1_R·R`, `tp2 = entry + tp2R·R`; SELL mirrored.
The ATR is recomputed from the candle store; a missing ATR is modelled
as `none` (the engine only reaches this after a BOS trigger, which
requires a defined ATR). -/
def computeSLTP (candles : List Bar) (direction : Dir)
    (pullbackExtreme entryPrice tp2R : ℚ) : Option (ℚ × ℚ × ℚ) :=
  (IndEma.atr (highs candles) (lows candles) (closes candles) ATR_PERIOD).map
    (fun atrVal =>
      match direction with
      | .BUY =>
          (pullbackExtreme - SL_BUFFER_ATR * atrVal,
           entryPrice + TP1_R * (entryPrice - (pullbackExtreme - SL_BUFFER_ATR * atrVal)),
           entryPrice + tp2R * (entryPrice - (pullbackExtreme - SL_BUFFER_ATR * atrVal)))
      | .SELL =>
          (pullbackExtreme + SL_BUFFER_ATR * atrVal,
           entryPrice - TP1_R * ((pullbackExtreme + SL_BUFFER_ATR * atrVal) - entryPrice),
           entryPrice - tp2R * ((pullbackExtreme + SL_BUFFER_ATR * atrVal) - entryPrice)))

/-- `placeOrder` (strategy.js lines 333-394) as a state transformer.
`createResult` is the outcome of `api.createPosition` together with its
deal confirmation: `some (dealId, dealReference)` on success, `none`
when the call or the confirmation throws.  `Except.error` carries the
state at the point the exception escapes (no mutation has happened yet:
`state.addPosition` is only reached after a confirmed dealId),
`Except.ok` the state of a normal return. -/
def placeOrderE (candles : List Bar) (st : BotState) (setup : Setup)
    (bid ask : ℚ) (mode : Mode) (now : Int)
    (createResult : Option (String × String)) : Except BotState BotState :=
  match computeSLTP candles setup.direction setup.pullbackExtreme
      (match setup.direction with | .BUY => ask | .SELL => bid)
      (match mode with | .SCALP => TP2_R_SCALP | _ => TP2_R_SWING) with
  | none => .ok st
  | some (sl, tp1, tp2) =>
      if |tp1 - (match setup.direction with | .BUY => ask | .SELL => bid)|
          < TP1_MIN_DISTANCE_SPREAD_MULT * (ask - bid) then
        .ok st
      else
        match createResult with
        | none => .error st
        | some (dealId, dealReference) =>
            .ok (addPosition st
              { mode := mode
                direction := setup.direction
                size := match mode with | .SCALP => SCALP_SIZE_UNITS | _ => SWING_SIZE_UNITS
                entry := match setup.direction with | .BUY => ask | .SELL => bid
                sl := sl
                tp1 := tp1
                tp2 := tp2
                tp1Done := false
                dealId := dealId
                dealReference := dealReference
                openedTime := now })

/-- The order-issue tail of `onM5Close` (strategy.js lines 820-835)
once BOS has triggered and the M1 micro-confirm has passed:
`await placeOrder(...); state.setSetupScalp({ active: false })`.
There is no try/catch here, so when `placeOrder` throws the
deactivation statement does not run and the exception propagates to
the polling loop in index.js (which only logs it). -/
def onM5IssueStep (candles : List Bar) (st : BotState) (setup : Setup)
    (bid ask : ℚ) (now : Int)
    (createResult : Option (String × String)) : BotState :=
  match placeOrderE candles st setup bid ask .SCALP now createResult with
  | .ok st1 => { st1 with setupScalp := none }
  | .error st1 => st1

/-- The SL-hit branch of `managePositions` (strategy.js lines 431-447):
close remotely (a throw is caught and only logged, leaving `confirmed`
undefined), resolve the pnl, `updatePnL(pnl, pnl < 0)`, remove the
position.  `confirmedProfit` is `some p` when the close confirmation
carried a numeric profit, `none` otherwise (throw or missing field). -/
def onSLHit (st : BotState) (pos : Position) (exitPrice : ℚ)
    (confirmedProfit : Option ℚ) : BotState :=
  removePosition
    (updatePnL st
      (resolvePnl confirmedProfit pos.direction pos.entry exitPrice (pos.size : ℚ))
      (decide (resolvePnl confirmedProfit pos.direction pos.entry exitPrice (pos.size : ℚ) < 0)))
    pos.dealId

/-- The TP2-hit branch of `managePositions` (strategy.js lines 534-548):
same shape as the SL branch. -/
def onTP2Hit (st : BotState) (pos : Position) (exitPrice : ℚ)
    (confirmedProfit : Option ℚ) : BotState :=
  removePosition
    (updatePnL st
      (resolvePnl confirmedProfit pos.direction pos.entry exitPrice (pos.size : ℚ))
      (decide (resolvePnl confirmedProfit pos.direction pos.entry exitPrice (pos.size : ℚ) < 0)))
    pos.dealId

/-- Pointwise update used by the TP1 catch handler. -/
def setTp1DoneIf (dealId : String) (q : Position) : Position :=
  if q.dealId = dealId then { q with tp1Done := true } else q

/-- The catch handler of the TP1 branch (`pos.tp1Done = true` mutates the
tracked object in place). -/
def markTp1Done (st : BotState) (dealId : String) : BotState :=
  { st with openPositions := st.openPositions.map (setTp1DoneIf dealId) }

/-- The pnl booking inside the TP1 try block: the closed portion is
`closeSize = floor(size · PARTIAL_CLOSE_TP1)` and the counters are
updated with `updatePnL(pnl1, pnl1 < 0)`. -/
def tp1BookPnl (st : BotState) (pos : Position) (exitPrice : ℚ)
    (confirmedProfit : Option ℚ) : BotState :=
  updatePnL st
    (resolvePnl confirmedProfit pos.direction pos.entry exitPrice
      ((Nat.floor ((pos.size : ℚ) * PARTIAL_CLOSE_TP1) : ℕ) : ℚ))
    (decide (resolvePnl confirmedProfit pos.direction pos.entry exitPrice
      ((Nat.floor ((pos.size : ℚ) * PARTIAL_CLOSE_TP1) : ℕ) : ℚ) < 0))

/-- The TP1-hit branch of `managePositions` (strategy.js lines 450-526).
`closeResult`: `none` when `api.closePosition` throws, otherwise
`some confirmedProfit` (the broker profit field, when numeric).
`createResult`: outcome of the re-open `api.createPosition` call.
Branches, in source order: `closeSize = floor(size · PARTIAL_CLOSE_TP1)`;
if `closeSize < 1` mark tp1Done (and move SL to breakeven when the
policy is on — the remote `updatePosition` call does not touch local
state); otherwise close, book the pnl on `closeSize`, and when at least
one unit remains re-open the remainder at the observed exit; a throw
anywhere in the try block lands in the catch, which sets
`pos.tp1Done = true`. -/
def onTP1Hit (st : BotState) (pos : Position) (exitPrice : ℚ) (be : Bool)
    (closeResult : Option (Option ℚ))
    (createResult : Option (String × String)) : BotState :=
  if Nat.floor ((pos.size : ℚ) * PARTIAL_CLOSE_TP1) < 1 then
    replacePosition st pos.dealId
      { pos with tp1Done := true, sl := if be then pos.entry else pos.sl }
  else
    match closeResult with
    | none => markTp1Done st pos.dealId
    | some confirmedProfit =>
        if 1 ≤ pos.size - Nat.floor ((pos.size : ℚ) * PARTIAL_CLOSE_TP1) then
          match createResult with
          | none => markTp1Done (tp1BookPnl st pos exitPrice confirmedProfit) pos.dealId
          | some (newDealId, newRef) =>
              replacePosition (tp1BookPnl st pos exitPrice confirmedProfit) pos.dealId
                { pos with
                    dealId := newDealId
                    dealReference := newRef
                    size := pos.size - Nat.floor ((pos.size : ℚ) * PARTIAL_CLOSE_TP1)
                    entry := exitPrice
                    sl := if be then pos.entry else pos.sl
                    tp1Done := true }
        else removePosition (tp1BookPnl st pos exitPrice confirmedProfit) pos.dealId

/-! ### Reconciler (`reconcilePositions`, strategy.js lines 571-678) -/

/-- Outcome of the direct single-position GET used at the miss
threshold: the call threw (non-404 failure), returned a position, or
returned null (confirmed 404). -/
inductive FetchResult
  | fault
  | found
  | notFound
deriving DecidableEq, Repr

def MISS_THRESHOLD : ℕ := 3

/-- One reconcile cycle for one tracked position, as a function of the
miss counter read from `_reconcileMissCount` (a deleted entry reads as
0 via `|| 0`), whether the dealId appears in the remote `/positions`
list, and the direct-fetch outcome.  Returns the stored counter after
the cycle (deletion again modelled as 0) and whether
`state.removePosition` ran for this dealId. -/
def reconcileStep (missCount : ℕ) (presentInList : Bool)
    (fetch : FetchResult) : ℕ × Bool :=
  if presentInList then (0, false)
  else
    if missCount + 1 < MISS_THRESHOLD then (missCount + 1, false)
    else
      match fetch with
      | .fault => (missCount + 1, false)
      | .found => (0, false)
      | .notFound => (0, true)

/-! ### Concrete fixtures used by counterexamples and witnesses -/

/-- A flat bar: high 1, low 0, open and close 1/2; true range 1. -/
def fb : Bar := ⟨0, 1/2, 1, 0, 1/2⟩

/-- Fourteen flat bars; every true range is 1, so the 14-period ATR is
exactly 1. -/
def flat14 : List Bar := [fb, fb, fb, fb, fb, fb, fb, fb, fb, fb, fb, fb, fb, fb]

/-- The BOS trigger bar of the C7 witness scenario. -/
def bosLastBar : Bar := ⟨15, 3/2, 2, 6/5, 19/10⟩

/-- Fifteen flat bars followed by a breakout bar. -/
def bosBars : List Bar :=
  [fb, fb, fb, fb, fb, fb, fb, fb, fb, fb, fb, fb, fb, fb, fb, bosLastBar]

/-- A single flat bar at time 0 (C4 fixture). -/
def c4Bar : Bar := ⟨0, 1/2, 1, 0, 1/2⟩

/-- An active BUY scalp setup with pullback extreme 99.5. -/
def exSetup : Setup := ⟨.BUY, 0, 199/2⟩

/-- A bot state holding only the active scalp setup. -/
def exState : BotState := ⟨[], 0, 0, 0, some exSetup, none⟩

/-- A size-4 BUY position (C3 witness, the spec seed test 3 shape). -/
def exPos : Position := ⟨.SCALP, .BUY, 4, 2010, 2008, 2012, 2014, false, "D1", "R1", 0⟩

/-- A bot state tracking `exPos`. -/
def exState3 : BotState := ⟨[exPos], 0, 1, 0, none, none⟩

/-- Projection of a `placeOrderE` run onto the resulting local state,
whether the run returned or raised. -/
def exceptState (e : Except BotState BotState) : BotState :=
  match e with
  | .ok s => s
  | .error s => s

/-! ## Theorems -/

/-- C5 (counterexample): the `atr` of src/node/src/indicators.js — the
indicator module the `src/node` strategy requires — is EMA-smoothed
with `k = 2/(n+1)`, not the Wilder RMA with `α = 1/n` the claim
asserts.  On true ranges `[1, 1, 5]` with `n = 2` it yields `11/3`
while the Wilder-smoothed RMA seeded by the SMA of the first two TRs
yields `3`. -/
theorem c5_counterexample :
    IndEma.atr [1, 1, 5] [0, 0, 0] [1/2, 1/2, 1] 2 = some (11/3)
    ∧ atrSpec [1, 1, 5] [0, 0, 0] [1/2, 1/2, 1] 2 = some 3
    ∧ ((11 : ℚ)/3 ≠ 3) := by
  refine ⟨?_, ?_, by norm_num⟩
  · simp only [IndEma.atr, IndEma.ema, trueRanges, trAux]
    norm_num [max_def, abs]
  · simp only [atrSpec, rmaSpec, trueRanges, trAux]
    norm_num [max_def, abs]

/-- C5 (amended): the Wilder-claim holds for the other atr generation —
`atr` of src/unnamed/part_002 (built on `wilderRMA`) equals the
spec-worded Wilder RMA with `α = 1/n` over the true-range sequence,
seeded by the SMA of the first `n` TRs; the `atr` of
src/node/src/indicators.js instead smooths with the EMA constant
`2/(n+1)` and differs (see the counterexample).  Pointwise step
identity under the fold: `(acc·(n-1) + v)/n = (1 - 1/n)·acc + (1/n)·v`. -/
theorem c5_part002_atr_is_wilder_rma (hs ls cs : List ℚ) (n : ℕ) :
    IndWilder.atr hs ls cs n = atrSpec hs ls cs n := by
  unfold IndWilder.atr atrSpec IndWilder.wilderRMA rmaSpec
  by_cases h0 : n = 0 ∨ (trueRanges hs ls cs).length < n
  · simp [h0]
  · rw [if_neg h0, if_neg h0]
    congr 1
    apply List.foldl_ext
    intro acc v _
    have hn : (n : ℚ) ≠ 0 :=
      Nat.cast_ne_zero.mpr (not_or.mp h0).1
    field_simp
    ring

/-- C9: `tradesToday` is incremented by `addPosition` (which appends the
position) and by nothing else: `adoptPosition` and `replacePosition`
change the tracked list but leave the counter unchanged, and the whole
TP1 handler — which re-enters the remainder through `replacePosition` —
also leaves it unchanged. -/
theorem c9_trades_count (st : BotState) (p : Position) (oldDealId : String) :
    (addPosition st p).tradesToday = st.tradesToday + 1
    ∧ (addPosition st p).openPositions = st.openPositions ++ [p]
    ∧ (adoptPosition st p).tradesToday = st.tradesToday
    ∧ (adoptPosition st p).openPositions = st.openPositions ++ [p]
    ∧ (replacePosition st oldDealId p).tradesToday = st.tradesToday
    ∧ (replacePosition st oldDealId p).openPositions
        = (st.openPositions.filter (fun q => q.dealId ≠ oldDealId)) ++ [p]
    ∧ ∀ (exitPrice : ℚ) (be : Bool) (closeResult : Option (Option ℚ))
        (createResult : Option (String × String)),
        (onTP1Hit st p exitPrice be closeResult createResult).tradesToday = st.tradesToday := by
  refine ⟨rfl, rfl, rfl, rfl, rfl, rfl, ?_⟩
  intro exitPrice be closeResult createResult
  unfold onTP1Hit
  split
  · rfl
  · split
    · rfl
    · split
      · split
        · rfl
        · rfl
      · rfl

/-- C8: `updatePnL` adds the delta to the daily realised PnL and, when
called with `isLoss = (delta < 0)` as every close path of the position
manager does, increments `consecutiveLosses` exactly on a strict loss
and resets it to 0 otherwise (a delta of exactly zero resets); the
SL-hit close path composes to the same counter behaviour on its
resolved pnl. -/
theorem c8_update_pnl (st : BotState) (delta : ℚ) :
    ((updatePnL st delta (decide (delta < 0))).dayRealizedPnlUsd
        = st.dayRealizedPnlUsd + delta
      ∧ (updatePnL st delta (decide (delta < 0))).consecutiveLosses
        = (if delta < 0 then st.consecutiveLosses + 1 else 0))
    ∧ ∀ (pos : Position) (exitPrice : ℚ) (confirmedProfit : Option ℚ),
        (onSLHit st pos exitPrice confirmedProfit).consecutiveLosses
          = (if resolvePnl confirmedProfit pos.direction pos.entry exitPrice (pos.size : ℚ) < 0
             then st.consecutiveLosses + 1 else 0)
        ∧ (onSLHit st pos exitPrice confirmedProfit).dayRealizedPnlUsd
          = st.dayRealizedPnlUsd
            + resolvePnl confirmedProfit pos.direction pos.entry exitPrice (pos.size : ℚ) := by
  constructor
  · constructor
    · rfl
    · by_cases h : delta < 0 <;> simp [updatePnL, h]
  · intro pos exitPrice confirmedProfit
    by_cases h : resolvePnl confirmedProfit pos.direction pos.entry exitPrice (pos.size : ℚ) < 0 <;>
      simp [onSLHit, updatePnL, removePosition, h]

/-- C2: a tracked position is removed by a reconcile cycle exactly when
it is absent from the remote list, its consecutive-miss counter has
reached the threshold 3 (counting this cycle's increment), and the
direct single-position fetch confirmed non-existence; with fewer than
3 consecutive misses the cycle only bumps the counter, and a direct
fetch that finds the position at the threshold resets the counter to 0
without removing. -/
theorem c2_reconcile_removal_guard (m : ℕ) (present : Bool) (fetch : FetchResult) :
    ((reconcileStep m present fetch).2 = true
        ↔ (present = false ∧ MISS_THRESHOLD ≤ m + 1 ∧ fetch = .notFound))
    ∧ (m + 1 < MISS_THRESHOLD → reconcileStep m false fetch = (m + 1, false))
    ∧ (MISS_THRESHOLD ≤ m + 1 → fetch = .found → reconcileStep m false fetch = (0, false)) := by
  unfold reconcileStep MISS_THRESHOLD
  cases present <;> cases fetch <;>
    by_cases h : m + 1 < 3 <;> simp [h] <;> omega

/-- C2 witness: two misses only bump the counter to 2 without removal;
at the threshold a successful direct fetch resets the counter to 0. -/
theorem c2_reconcile_removal_guard_witness :
    reconcileStep 1 false .notFound = (2, false)
    ∧ reconcileStep 2 false .found = (0, false) :=
  ⟨(c2_reconcile_removal_guard 1 false .notFound).2.1 (by decide),
   (c2_reconcile_removal_guard 2 false .found).2.2 (by decide) rfl⟩

/-- C4 (counterexample): a bar whose period has elapsed except for a
0.5 s remainder — the claimed rule (`kept iff T - t ≥ Δ(tf) - 1 s`)
stores it as closed, but the `dropInProgress` at
src/node/src/candleStore.js lines 167-173 still drops it: at
`T = 299500`, `t = 0`, `Δ(M5) = 300000` we have
`T - t ≥ Δ - 1000` yet the fetched singleton list comes back empty. -/
theorem c4_counterexample :
    TF_MS .M5 - 1000 ≤ (299500 : ℤ) - c4Bar.t
    ∧ dropInProgressNoCushion .M5 [c4Bar] 299500 = [] := by
  constructor
  · decide
  · rfl

/-- C4 (amended): the 1-second-cushion rule holds for the
`dropInProgress` of src/unnamed/part_002 (last bar dropped exactly when
`T - t < Δ(tf) - 1 s`); the variant at src/node/src/candleStore.js
lines 167-173 uses no cushion (`ε = 0`): it drops the last bar exactly
when `T - t < Δ(tf)`. -/
theorem c4_drop_in_progress_rules (tf : TF) (bars : List Bar) (now : Int)
    (lastBar : Bar) (hlast : bars.getLast? = some lastBar) :
    dropInProgressCushion tf bars now
        = (if now - lastBar.t < TF_MS tf - 1000 then bars.dropLast else bars)
    ∧ dropInProgressNoCushion tf bars now
        = (if now - lastBar.t < TF_MS tf then bars.dropLast else bars) := by
  simp only [dropInProgressCushion, dropInProgressNoCushion, hlast]
  constructor
  · exact if_congr (by omega) rfl rfl
  · trivial

/-- C4 witness: the amended rule evaluated on a concrete singleton
fetch at `T = 100`. -/
theorem c4_drop_in_progress_rules_witness :
    dropInProgressCushion .M5 [c4Bar] 100
        = (if (100 : Int) - c4Bar.t < TF_MS .M5 - 1000 then [c4Bar].dropLast else [c4Bar])
    ∧ dropInProgressNoCushion .M5 [c4Bar] 100
        = (if (100 : Int) - c4Bar.t < TF_MS .M5 then [c4Bar].dropLast else [c4Bar]) :=
  c4_drop_in_progress_rules .M5 [c4Bar] 100 c4Bar rfl

/-- C7: with at least `bosLookback + 1` closed bars and a defined ATR
`a`, `triggerBOS` fires iff the trigger bar is not a big candle
(`range ≤ 1.5·a`, so a range exactly equal to `1.5·a` is not skipped)
and the close clears the structure level by strictly more than
`margin = max(spread, 0.05·a)`: `close > HH(prev, n) + margin` for BUY,
`close < LL(prev, n) - margin` for SELL (equality does not fire). -/
theorem c7_trigger_bos (candles : List Bar) (dir : Dir) (n : ℕ)
    (spread a : ℚ) (bar : Bar)
    (hlen : n + 1 ≤ candles.length)
    (hatr : IndEma.atr (highs candles) (lows candles) (closes candles) ATR_PERIOD = some a)
    (hlast : candles.getLast? = some bar) :
    triggerBOS candles dir n spread = true ↔
      (bar.h - bar.l ≤ BIG_CANDLE_ATR_MAX * a
        ∧ ((dir = .BUY
              ∧ highestHigh (highs candles.dropLast) n + max spread (1/20 * a) < bar.c)
           ∨ (dir = .SELL
              ∧ bar.c < lowestLow (lows candles.dropLast) n - max spread (1/20 * a)))) := by
  have h1 : ¬ candles.length < n + 1 := by omega
  have h2 : ¬ (candles.dropLast).length < n := by
    rw [List.length_dropLast]; omega
  simp only [triggerBOS, h1, if_false, hatr, hlast, h2]
  by_cases hbig : BIG_CANDLE_ATR_MAX * a < bar.h - bar.l
  · simp only [if_pos hbig]
    constructor
    · intro h; cases h
    · rintro ⟨hle, -⟩; exact absurd hbig (not_lt.mpr hle)
  · have hle := not_lt.mp hbig
    simp only [if_neg hbig]
    cases dir
    · simp [decide_eq_true_iff, hle]
    · simp [decide_eq_true_iff, hle]

/-- Evaluation helper: the 14-period EMA-ATR of fourteen flat bars is 1. -/
lemma flat14_atr :
    IndEma.atr (highs flat14) (lows flat14) (closes flat14) ATR_PERIOD = some 1 := by
  simp only [flat14, fb, highs, lows, closes, List.map_cons, List.map_nil,
    IndEma.atr, IndEma.ema, trueRanges, trAux, ATR_PERIOD]
  norm_num [max_def, abs]

/-- Evaluation helper: the 14-period EMA-ATR of the BOS witness bars. -/
lemma bosBars_atr :
    IndEma.atr (highs bosBars) (lows bosBars) (closes bosBars) ATR_PERIOD
      = some (16/15) := by
  simp only [bosBars, fb, bosLastBar, highs, lows, closes, List.map_cons, List.map_nil,
    IndEma.atr, IndEma.ema, trueRanges, trAux, ATR_PERIOD]
  norm_num [max_def, abs]

/-- C7 witness: a concrete BUY scenario (ATR `16/15`, spread `1/10`,
close `19/10` above the 8-bar highest high `1` plus the margin) fires
the trigger, obtained through the characterisation. -/
theorem c7_trigger_bos_witness : triggerBOS bosBars .BUY 8 (1/10) = true := by
  refine (c7_trigger_bos bosBars .BUY 8 (1/10) (16/15) bosLastBar
    (by decide) bosBars_atr rfl).mpr ⟨?_, Or.inl ⟨rfl, ?_⟩⟩
  · norm_num [bosLastBar, BIG_CANDLE_ATR_MAX]
  · simp only [bosBars, fb, bosLastBar, highs, List.map_cons, List.map_nil,
      highestHigh]
    norm_num [max_def]

/-- Evaluation helper: `computeSLTP` on the flat history (ATR exactly 1)
for a BUY with extreme 99.5, entry 100 and the scalp `tp2R = 2`. -/
lemma flat14_sltp :
    computeSLTP flat14 .BUY (199/2) 100 TP2_R_SCALP
      = some (1987/20, 2013/20, 1013/10) := by
  unfold computeSLTP
  rw [flat14_atr]
  simp only [Option.map_some]
  norm_num [SL_BUFFER_ATR, TP1_R, TP2_R_SCALP]

/-- Evaluation helper: the same with a deeper extreme of 99. -/
lemma flat14_sltp_deep :
    computeSLTP flat14 .BUY 99 100 TP2_R_SCALP
      = some (1977/20, 2023/20, 1023/10) := by
  unfold computeSLTP
  rw [flat14_atr]
  simp only [Option.map_some]
  norm_num [SL_BUFFER_ATR, TP1_R, TP2_R_SCALP]

/-- C1 (counterexample): on a history whose entry-timeframe ATR is
exactly 1, a BUY scalp with entry 100 and pullback extreme 99.5 gets
`tp1 = 100.65` and `tp2 = 101.3` — not the claimed
`entry + 0.8·ATR = 100.8` and `entry + 1.6·ATR = 101.6`; and moving the
extreme to 99 (same entry, same ATR) changes `tp1` to `101.15`, so the
targets do depend on `|entry − sl|`. -/
theorem c1_counterexample :
    computeSLTP flat14 .BUY (199/2) 100 TP2_R_SCALP = some (1987/20, 2013/20, 1013/10)
    ∧ ((2013 : ℚ)/20 ≠ 100 + 8/10 * 1)
    ∧ ((1013 : ℚ)/10 ≠ 100 + 16/10 * 1)
    ∧ computeSLTP flat14 .BUY 99 100 TP2_R_SCALP = some (1977/20, 2023/20, 1023/10)
    ∧ ((2013 : ℚ)/20 ≠ (2023 : ℚ)/20) :=
  ⟨flat14_sltp, by norm_num, by norm_num, flat14_sltp_deep, by norm_num⟩

/-- C1 (amended): the scalp take-profits computed by `computeSLTP` are
R-multiples of the stop distance, not ATR offsets of the entry: with
ATR `a`, BUY gets `sl = extreme − 0.15·a`, `tp1 = entry + TP1_R·R`,
`tp2 = entry + tp2R·R` with `R = entry − sl`; SELL mirrored with
`R = sl − entry`. -/
theorem c1_sl_tp_r_multiples (candles : List Bar) (extreme entry tp2R a : ℚ)
    (hatr : IndEma.atr (highs candles) (lows candles) (closes candles) ATR_PERIOD
      = some a) :
    (∃ sl tp1 tp2, computeSLTP candles .BUY extreme entry tp2R = some (sl, tp1, tp2)
        ∧ sl = extreme - SL_BUFFER_ATR * a
        ∧ tp1 = entry + TP1_R * (entry - sl)
        ∧ tp2 = entry + tp2R * (entry - sl))
    ∧ (∃ sl tp1 tp2, computeSLTP candles .SELL extreme entry tp2R = some (sl, tp1, tp2)
        ∧ sl = extreme + SL_BUFFER_ATR * a
        ∧ tp1 = entry - TP1_R * (sl - entry)
        ∧ tp2 = entry - tp2R * (sl - entry)) := by
  unfold computeSLTP
  rw [hatr]
  exact ⟨⟨_, _, _, rfl, rfl, rfl, rfl⟩, ⟨_, _, _, rfl, rfl, rfl, rfl⟩⟩

/-- C1 witness: the amended formula instantiated on the flat history
with ATR exactly 1. -/
theorem c1_sl_tp_r_multiples_witness :
    (∃ sl tp1 tp2, computeSLTP flat14 .BUY (199/2) 100 TP2_R_SCALP = some (sl, tp1, tp2)
        ∧ sl = 199/2 - SL_BUFFER_ATR * 1
        ∧ tp1 = 100 + TP1_R * (100 - sl)
        ∧ tp2 = 100 + TP2_R_SCALP * (100 - sl))
    ∧ (∃ sl tp1 tp2, computeSLTP flat14 .SELL (199/2) 100 TP2_R_SCALP = some (sl, tp1, tp2)
        ∧ sl = 199/2 + SL_BUFFER_ATR * 1
        ∧ tp1 = 100 - TP1_R * (sl - 100)
        ∧ tp2 = 100 - TP2_R_SCALP * (sl - 100)) :=
  c1_sl_tp_r_multiples flat14 (199/2) 100 TP2_R_SCALP 1 flat14_atr

/-- C3: when `floor(size · PARTIAL_CLOSE_TP1) ≥ 1` and both the remote
close and the re-entry order succeed, the TP1 handler replaces the
tracked position by a follower of size `size − floor(size · f)`,
entered at the observed exit price, with `tp1Done = true`, the same
`tp2`, and `sl` moved to the original entry exactly when the
break-even policy is on. -/
theorem c3_tp1_partial_close (st : BotState) (pos : Position) (exitPrice : ℚ)
    (be : Bool) (confirmedProfit : Option ℚ) (newDealId newRef : String)
    (hc : 1 ≤ Nat.floor ((pos.size : ℚ) * PARTIAL_CLOSE_TP1)) :
    ∃ f : Position,
      (onTP1Hit st pos exitPrice be (some confirmedProfit)
          (some (newDealId, newRef))).openPositions
        = (st.openPositions.filter (fun p => p.dealId ≠ pos.dealId)) ++ [f]
      ∧ f.size = pos.size - Nat.floor ((pos.size : ℚ) * PARTIAL_CLOSE_TP1)
      ∧ f.entry = exitPrice
      ∧ f.tp1Done = true
      ∧ f.tp2 = pos.tp2
      ∧ f.sl = (if be then pos.entry else pos.sl)
      ∧ f.dealId = newDealId := by
  have hfloor : Nat.floor ((pos.size : ℚ) * PARTIAL_CLOSE_TP1) = pos.size / 2 := by
    have h2 : ((pos.size : ℚ) * PARTIAL_CLOSE_TP1) = (pos.size : ℚ) / ((2 : ℕ) : ℚ) := by
      unfold PARTIAL_CLOSE_TP1
      push_cast
      ring
    rw [h2, Nat.floor_div_nat, Nat.floor_natCast]
  have hrem : 1 ≤ pos.size - Nat.floor ((pos.size : ℚ) * PARTIAL_CLOSE_TP1) := by
    rw [hfloor] at hc ⊢
    omega
  unfold onTP1Hit
  rw [if_neg (by omega)]
  dsimp only
  rw [if_pos hrem]
  exact ⟨_, rfl, rfl, rfl, rfl, rfl, rfl, rfl⟩

/-- C3 witness: the spec seed scenario — size 4, partial fraction 1/2,
close size 2, follower size 2 entered at the exit 2012 with
`sl = entry` under the break-even policy. -/
theorem c3_tp1_partial_close_witness :
    1 ≤ Nat.floor ((exPos.size : ℚ) * PARTIAL_CLOSE_TP1)
    ∧ ∃ f : Position,
        (onTP1Hit exState3 exPos 2012 true (some (some 4))
            (some ("D9", "R9"))).openPositions
          = (exState3.openPositions.filter (fun p => p.dealId ≠ exPos.dealId)) ++ [f]
        ∧ f.size = exPos.size - Nat.floor ((exPos.size : ℚ) * PARTIAL_CLOSE_TP1)
        ∧ f.entry = 2012
        ∧ f.tp1Done = true
        ∧ f.tp2 = exPos.tp2
        ∧ f.sl = (if true then exPos.entry else exPos.sl)
        ∧ f.dealId = "D9" := by
  have hc : 1 ≤ Nat.floor ((exPos.size : ℚ) * PARTIAL_CLOSE_TP1) := by
    norm_num [exPos, PARTIAL_CLOSE_TP1]
  exact ⟨hc, c3_tp1_partial_close exState3 exPos 2012 true (some 4) "D9" "R9" hc⟩

/-- Case analysis of a `placeOrder` run: it either returns normally with
the state untouched (missing ATR, or the TP1/spread sanity abort), or
raises with the state untouched — which happens only when the remote
order call threw — or returns normally having recorded exactly one new
position through `addPosition`, which happens only with a confirmed
dealId in hand. -/
lemma placeOrderE_cases (candles : List Bar) (st : BotState) (setup : Setup)
    (bid ask : ℚ) (mode : Mode) (now : Int)
    (createResult : Option (String × String)) :
    placeOrderE candles st setup bid ask mode now createResult = .ok st
    ∨ (createResult = none
        ∧ placeOrderE candles st setup bid ask mode now createResult = .error st)
    ∨ (∃ p ids, createResult = some ids ∧ p.dealId = ids.1 ∧ p.tp1Done = false
        ∧ placeOrderE candles st setup bid ask mode now createResult
            = .ok (addPosition st p)) := by
  unfold placeOrderE
  split
  · exact Or.inl rfl
  · split
    · exact Or.inl rfl
    · cases createResult with
      | none => exact Or.inr (Or.inl ⟨rfl, rfl⟩)
      | some ids =>
          obtain ⟨dealId, ref⟩ := ids
          exact Or.inr (Or.inr ⟨_, (dealId, ref), rfl, rfl, rfl, rfl⟩)

/-- C6 (counterexample): an M5 evaluation that reaches the order-issue
step (active BUY setup, flat history with ATR 1, sane TP1 distance) in
which `createPosition` throws leaves the scalp setup ACTIVE: the
deactivation statement after `await placeOrder(...)` never runs because
`onM5Close` has no try/catch around it. -/
theorem c6_counterexample :
    (onM5IssueStep flat14 exState exSetup (1999/20) 100 0 none).setupScalp
      = some exSetup := by
  have hsl : computeSLTP flat14 exSetup.direction exSetup.pullbackExtreme
      (match exSetup.direction with | .BUY => (100 : ℚ) | .SELL => 1999/20)
      (match Mode.SCALP with | .SCALP => TP2_R_SCALP | _ => TP2_R_SWING)
      = some (1987/20, 2013/20, 1013/10) := by
    exact flat14_sltp
  unfold onM5IssueStep placeOrderE
  rw [hsl]
  dsimp only
  rw [if_neg (by norm_num [TP1_MIN_DISTANCE_SPREAD_MULT, exSetup, abs])]
  rfl

/-- C6 (amended): after an M5 evaluation reaches the order-issue step,
the scalp setup is deactivated whenever `placeOrder` returns normally —
including the TP1/spread sanity abort — but when `createPosition` or
its deal confirmation throws, the exception propagates past the
deactivation statement and the whole state (the setup included) is
left as it was. -/
theorem c6_setup_deactivation (candles : List Bar) (st : BotState) (setup : Setup)
    (bid ask : ℚ) (now : Int) (createResult : Option (String × String)) :
    (onM5IssueStep candles st setup bid ask now createResult).setupScalp = none
    ∨ (createResult = none
        ∧ onM5IssueStep candles st setup bid ask now createResult = st) := by
  rcases placeOrderE_cases candles st setup bid ask .SCALP now createResult with
    h | ⟨hres, h⟩ | ⟨p, ids, hres, -, -, h⟩
  · left
    unfold onM5IssueStep
    rw [h]
  · right
    refine ⟨hres, ?_⟩
    unfold onM5IssueStep
    rw [h]
  · left
    unfold onM5IssueStep
    rw [h]

/-- C10: `placeOrder` is atomic with respect to local state: when the
remote order fails (the call or its confirmation throws before a dealId
is obtained, `createResult = none`) the run leaves the state — tracked
positions and `tradesToday` included — exactly as it was; and a
successful run either aborts on the sanity check (state unchanged) or
records exactly one position through `addPosition`, carrying the
confirmed dealId. -/
theorem c10_place_order_atomic (candles : List Bar) (st : BotState) (setup : Setup)
    (bid ask : ℚ) (mode : Mode) (now : Int) :
    exceptState (placeOrderE candles st setup bid ask mode now none) = st
    ∧ ∀ dealId ref,
        exceptState (placeOrderE candles st setup bid ask mode now (some (dealId, ref))) = st
        ∨ ∃ p : Position,
            placeOrderE candles st setup bid ask mode now (some (dealId, ref))
              = .ok (addPosition st p)
            ∧ p.dealId = dealId ∧ p.tp1Done = false := by
  constructor
  · rcases placeOrderE_cases candles st setup bid ask mode now none with
      h | ⟨-, h⟩ | ⟨p, ids, hres, -, -, -⟩
    · rw [h]; rfl
    · rw [h]; rfl
    · exact absurd hres (by simp)
  · intro dealId ref
    rcases placeOrderE_cases candles st setup bid ask mode now (some (dealId, ref)) with
      h | ⟨hres, -⟩ | ⟨p, ids, hres, hid, hdone, h⟩
    · left; rw [h]; rfl
    · exact absurd hres (by simp)
    · right
      refine ⟨p, ?_, ?_, hdone⟩
      · rw [h]
      · rw [hid]
        have hids : ids = (dealId, ref) := by
          injection hres with h1
          exact h1.symm
        rw [hids]

end CapitalBot
